import Mathlib

/-!
Shallow embedding of `src/py/rflib/aircraft/generic_controller.py`
(class `RealFlightGenericController`): channel-state management, the
SOAP exchange cycle, motion-to-channel conversion, and telemetry
decoding/persistence.  Machine floats are idealised as rationals;
network I/O is modelled by an explicit transport function together with
a trace of the requests a method emits.
-/

namespace RealFlight

/-- A raw value in a parsed SOAP response field: numeric, or a
non-numeric text payload (pandas would give it object dtype, and
`round` on it raises `TypeError`). -/
inductive PyVal where
  | num (q : ℚ)
  | text (s : String)
deriving DecidableEq, Repr

/-- Whether a response field is numeric. -/
def PyVal.isNum : PyVal → Bool
  | .num _ => true
  | .text _ => false

/-- Failure modes of `requests.post` (timeout, connection refused,
non-2xx status, malformed body). -/
inductive TransportFailure where
  | timeout
  | connectionRefused
  | badStatus
  | malformedBody
deriving DecidableEq, Repr

/-- Exceptions that can escape the controller methods, together with the
two typed errors named by the specification (`invalidStateError`,
`decodeError`).  The embedded code never produces the latter two; they
are present only so that spec claims mentioning them can be stated and
compared against what the code actually raises. -/
inductive PyError where
  | transportError (cause : TransportFailure)
  | attributeError
  | typeError
  | indexError
  | invalidStateError
  | decodeError
deriving DecidableEq, Repr

/-- The `m-aircraftState` element of an `ExchangeData` response, with
exactly the fields `update_telemetry` reads. -/
structure AircraftState where
  airspeed : PyVal
  aircraftPositionX : PyVal
  aircraftPositionY : PyVal
  altitudeAGL : PyVal
  roll : PyVal
  inclination : PyVal
  azimuth : PyVal
  currentAircraftStatus : PyVal
deriving DecidableEq, Repr

/-- A parsed SOAP response body; `aircraftState = none` models a
response in which BeautifulSoup finds no `m-aircraftState` element. -/
structure SoapResponse where
  aircraftState : Option AircraftState
deriving DecidableEq, Repr

/-- The seven fields of the state element that `update_telemetry`
passes through `round` (the status field is stored raw). -/
def numFields (st : AircraftState) : List PyVal :=
  [st.airspeed, st.aircraftPositionX, st.aircraftPositionY,
   st.altitudeAGL, st.roll, st.inclination, st.azimuth]

/-- A response whose state element is present and whose rounded fields
are all numeric, i.e. one `update_telemetry` decodes without raising. -/
def numericState (resp : SoapResponse) : Bool :=
  match resp.aircraftState with
  | none => false
  | some st => (numFields st).all PyVal.isNum

/-- Python `round` to an integer: round half to even. -/
def pyRoundInt (q : ℚ) : ℤ :=
  let f := ⌊q⌋
  let r := q - (f : ℚ)
  if r < 1/2 then f
  else if 1/2 < r then f + 1
  else if f % 2 = 0 then f else f + 1

/-- Python `round(q, n)`. -/
def pyRound (q : ℚ) (n : ℕ) : ℚ :=
  (pyRoundInt (q * (10 : ℚ) ^ n) : ℚ) / (10 : ℚ) ^ n

/-- One row of the telemetry DataFrame built by `update_telemetry`. -/
structure TelemetryRow where
  t : ℚ
  airspeed : ℚ
  aircraftX : ℚ
  aircraftY : ℚ
  altitudeAGL : ℚ
  roll : ℚ
  pitch : ℚ
  yaw : ℚ
  flying : PyVal
deriving DecidableEq, Repr

/-- The mutable state of a `RealFlightGenericController` instance:
`channel_values` and `start` are the attributes of the same names,
`telemetry` is the current-telemetry row (none for the empty frame),
and `log` models the records appended to `telemetry.log`. -/
structure Controller where
  channel_values : List ℚ
  telemetry : Option TelemetryRow
  log : List TelemetryRow
  start : ℚ
deriving DecidableEq, Repr

/-- Attribute `self.channel_default` from `__init__` (lines 50-63). -/
def channel_default : List ℚ :=
  [0.5, 0.5, 0.5, 0.5, 0.0, 0.0, 0.0, 1, 0.0, 0.0, 0.0, 0.0]

/-- The startup vector installed by `reset_aircraft` (line 161). -/
def startup_vector : List ℚ :=
  [0.5, 0.5, 0, 0.5, 0.0, 0.0, 0.0, 1, 0.0, 0.0, 0.0, 0.0]

/-- Constructor `__init__`: channel values default to `channel_default`, the
telemetry frame is empty, nothing logged, `start` is the current time. -/
def initController (t0 : ℚ) : Controller :=
  { channel_values := channel_default, telemetry := none, log := [], start := t0 }

/-- The SOAP operations the controller can post, identified by their
`soapaction` header; `exchangeData` carries the channel vector that the
request body interpolates. -/
inductive Request where
  | restoreOriginalControllerDevice
  | resetAircraft
  | injectUAVControllerInterface
  | exchangeData (channel_values : List ℚ)
deriving DecidableEq, Repr

/-- A transport: one `requests.post` round trip per request, which
either returns a parsed response or raises a transport failure. -/
def Transport : Type := Request → Except TransportFailure SoapResponse

/-- Python `round(response_df.at[0, field], 2)`: `TypeError` on non-numerics. -/
def roundField (v : PyVal) : Except PyError ℚ :=
  match v with
  | .num q => .ok (pyRound q 2)
  | .text _ => .error .typeError

/-- Method `update_telemetry` (lines 231-260).  `find("m-aircraftState")`
returns `None` when the element is absent, so `.prettify()` raises
`AttributeError`; `round` on a non-numeric field raises `TypeError`.
On success the row becomes the current telemetry and is appended to the
log unless the channel vector equals `channel_default`. -/
def update_telemetry (tNow : ℚ) (soap_response : SoapResponse) (c : Controller) :
    Except PyError Controller :=
  match soap_response.aircraftState with
  | none => .error .attributeError
  | some st =>
    match roundField st.airspeed, roundField st.aircraftPositionX,
          roundField st.aircraftPositionY, roundField st.altitudeAGL,
          roundField st.roll, roundField st.inclination,
          roundField st.azimuth with
    | .ok airspeed, .ok ax, .ok ay, .ok alt, .ok rollv, .ok pitchv, .ok yawv =>
      let row : TelemetryRow :=
        { t := pyRound (tNow - c.start) 3, airspeed := airspeed, aircraftX := ax,
          aircraftY := ay, altitudeAGL := alt, roll := rollv, pitch := pitchv,
          yaw := yawv, flying := st.currentAircraftStatus }
      .ok { c with telemetry := some row,
                   log := if c.channel_values = channel_default then c.log
                          else c.log ++ [row] }
    | _, _, _, _, _, _, _ => .error .typeError

/-- Outcome of running a controller method: the instance state when the
method returns or when an exception propagates out of it, the trace of
network requests it attempted, and the exception if one was raised. -/
structure StepResult where
  state : Controller
  requests : List Request
  err : Option PyError
deriving Repr

/-- Method `update_rc_value` (lines 187-229): interpolates
`channel_values[0]`..`[11]` into the body (an `IndexError` if the list
is shorter), posts it, and feeds the response to `update_telemetry`.
The `except Empty` clause catches only `queue.Empty`, which none of the
involved calls raise, so every failure propagates to the caller. -/
def update_rc_value (tr : Transport) (tNow : ℚ) (c : Controller) : StepResult :=
  if c.channel_values.length < 12 then ⟨c, [], some .indexError⟩
  else
    match tr (Request.exchangeData c.channel_values) with
    | .error f =>
      ⟨c, [Request.exchangeData c.channel_values], some (.transportError f)⟩
    | .ok resp =>
      match update_telemetry tNow resp c with
      | .error e => ⟨c, [Request.exchangeData c.channel_values], some e⟩
      | .ok c2 => ⟨c2, [Request.exchangeData c.channel_values], none⟩

/-- The channel-vector arithmetic of `convert_motion_in_channel_values`
(lines 275-296): the throttle is first computed with the ascend scale
and overwritten with the descend scale when `velocity_z < 0`. -/
def convert_channels (velocity_x velocity_y velocity_z rate_yaw : ℚ) : List ℚ :=
  let roll := 0.5 - (velocity_y * 3.6 / 9.5) / 2
  let pitch := 0.5 + (velocity_x * 3.6 / 9.5) / 2
  let throttle0 := 0.5 + (velocity_z * 3.6 / 13.5) / 2
  let throttle := if velocity_z < 0 then 0.5 + (velocity_z * 3.6 / 7) / 2 else throttle0
  let yaw := 0.5 + rate_yaw / 2
  [roll, pitch, throttle, yaw, 0.0, 0.0, 0.0, 1, 0.0, 0.0, 0.0, 0.0]

/-- Method `convert_motion_in_channel_values` (lines 262-298): stores the
converted vector in `self.channel_values` and then calls
`update_rc_value` (one network exchange). -/
def convert_motion_in_channel_values (tr : Transport) (tNow : ℚ)
    (velocity_x velocity_y velocity_z rate_yaw : ℚ) (c : Controller) : StepResult :=
  let c2 := { c with channel_values := convert_channels velocity_x velocity_y velocity_z rate_yaw }
  update_rc_value tr tNow c2

/-- Method `reset_aircraft` (lines 142-163): posts the reset request; on
success empties the current-telemetry frame, rebases `start`, installs
the startup vector and runs one exchange via `update_rc_value`. -/
def reset_aircraft (tr : Transport) (tNow : ℚ) (c : Controller) : StepResult :=
  match tr Request.resetAircraft with
  | .error f => ⟨c, [Request.resetAircraft], some (.transportError f)⟩
  | .ok _ =>
    let c2 := { c with telemetry := none, start := tNow,
                       channel_values := startup_vector }
    let r := update_rc_value tr tNow c2
    ⟨r.state, Request.resetAircraft :: r.requests, r.err⟩

/-- Method `enable` (lines 165-185): posts `InjectUAVControllerInterface`;
touches no instance state. -/
def enable (tr : Transport) (c : Controller) : StepResult :=
  match tr Request.injectUAVControllerInterface with
  | .error f => ⟨c, [Request.injectUAVControllerInterface], some (.transportError f)⟩
  | .ok _ => ⟨c, [Request.injectUAVControllerInterface], none⟩

/-- Method `disable` (lines 121-140): posts `RestoreOriginalControllerDevice`;
touches no instance state. -/
def disable (tr : Transport) (c : Controller) : StepResult :=
  match tr Request.restoreOriginalControllerDevice with
  | .error f => ⟨c, [Request.restoreOriginalControllerDevice], some (.transportError f)⟩
  | .ok _ => ⟨c, [Request.restoreOriginalControllerDevice], none⟩

/-- A fragment of the XML wire format: an element with a tag and
children, or a numeric leaf (an interpolated channel value). -/
inductive Xml where
  | elem (tag : String) (children : List Xml)
  | num (value : ℚ)

/-- The children of an element; a leaf has none. -/
def childElems : Xml → List Xml
  | .elem _ cs => cs
  | .num _ => []

/-- First child element with the given tag, in document order. -/
def findChild (tag : String) : List Xml → Option Xml
  | [] => none
  | Xml.elem t cs :: rest =>
      if t = tag then some (Xml.elem t cs) else findChild tag rest
  | Xml.num _ :: rest => findChild tag rest

/-- The value held by one `<item>` element of the channel list. -/
def itemValue : Xml → Option ℚ
  | Xml.elem "item" [Xml.num v] => some v
  | _ => none

/-- Request body for `ExchangeData` built by `update_rc_value`
(lines 197-219): `m-selectedChannels` is fixed at 4095 and the twelve
`<item>` elements interpolate `channel_values[0]`..`[11]` in order
(`none` models the `IndexError` on a shorter list). -/
def exchange_body (channel_values : List ℚ) : Option Xml :=
  if channel_values.length < 12 then none
  else some (Xml.elem "soap:Envelope" [Xml.elem "soap:Body" [Xml.elem "ExchangeData"
    [Xml.elem "pControlInputs"
      [Xml.elem "m-selectedChannels" [Xml.num 4095],
       Xml.elem "m-channelValues-0to1"
         [Xml.elem "item" [Xml.num (channel_values.getD 0 0)],
          Xml.elem "item" [Xml.num (channel_values.getD 1 0)],
          Xml.elem "item" [Xml.num (channel_values.getD 2 0)],
          Xml.elem "item" [Xml.num (channel_values.getD 3 0)],
          Xml.elem "item" [Xml.num (channel_values.getD 4 0)],
          Xml.elem "item" [Xml.num (channel_values.getD 5 0)],
          Xml.elem "item" [Xml.num (channel_values.getD 6 0)],
          Xml.elem "item" [Xml.num (channel_values.getD 7 0)],
          Xml.elem "item" [Xml.num (channel_values.getD 8 0)],
          Xml.elem "item" [Xml.num (channel_values.getD 9 0)],
          Xml.elem "item" [Xml.num (channel_values.getD 10 0)],
          Xml.elem "item" [Xml.num (channel_values.getD 11 0)]]]]]])

/-- Re-parse the ordered channel-value list out of an `ExchangeData`
request document: walk Envelope → Body → ExchangeData →
pControlInputs → m-channelValues-0to1 and read every `<item>`. -/
def parse_channel_items (doc : Xml) : Option (List ℚ) := do
  let body ← findChild "soap:Body" (childElems doc)
  let ex ← findChild "ExchangeData" (childElems body)
  let pci ← findChild "pControlInputs" (childElems ex)
  let cvs ← findChild "m-channelValues-0to1" (childElems pci)
  (childElems cvs).mapM itemValue

/-- One exchange cycle run with a prescribed channel vector and a
prescribed simulator response: store the vector, then `update_rc_value`. -/
def run_cycles (tNow : ℚ) : Controller → List (List ℚ × SoapResponse) → Controller
  | c, [] => c
  | c, (vec, resp) :: rest =>
      run_cycles tNow
        (update_rc_value (fun _ => Except.ok resp) tNow
          { c with channel_values := vec }).state rest

/-- Controller states reachable from construction through the public
methods, under arbitrary transports, times and motion arguments. -/
inductive Reachable : Controller → Prop where
  | init (t0 : ℚ) : Reachable (initController t0)
  | enable_step (tr : Transport) (c : Controller) :
      Reachable c → Reachable (enable tr c).state
  | disable_step (tr : Transport) (c : Controller) :
      Reachable c → Reachable (disable tr c).state
  | reset_step (tr : Transport) (tNow : ℚ) (c : Controller) :
      Reachable c → Reachable (reset_aircraft tr tNow c).state
  | exchange_step (tr : Transport) (tNow : ℚ) (c : Controller) :
      Reachable c → Reachable (update_rc_value tr tNow c).state
  | motion_step (tr : Transport) (tNow vx vy vz ry : ℚ) (c : Controller) :
      Reachable c →
      Reachable (convert_motion_in_channel_values tr tNow vx vy vz ry c).state

/-- Modelled from the spec: the channel vector that claim C3's words
describe, with the roll/pitch/throttle/yaw formulas followed by "four
zeros, flight-mode = 1, three trailing zeros". -/
def convert_channels_claim_C3 (velocity_x velocity_y velocity_z rate_yaw : ℚ) : List ℚ :=
  [0.5 - (velocity_y * (3.6 / 9.5)) / 2,
   0.5 + (velocity_x * (3.6 / 9.5)) / 2,
   if 0 ≤ velocity_z then 0.5 + (velocity_z * (3.6 / 13.5)) / 2
   else 0.5 + (velocity_z * (3.6 / 7)) / 2,
   0.5 + rate_yaw / 2,
   0, 0, 0, 0, 1, 0, 0, 0]

/-- A state element whose fields are all numeric (used as a concrete
well-formed simulator response in witnesses and counterexamples). -/
def goodState : AircraftState :=
  { airspeed := .num 3, aircraftPositionX := .num 10, aircraftPositionY := .num (-4),
    altitudeAGL := .num 2, roll := .num 1, inclination := .num 0,
    azimuth := .num 90, currentAircraftStatus := .num 1 }

/-- A well-formed response carrying `goodState`. -/
def goodResp : SoapResponse := { aircraftState := some goodState }

/-- A response with no `m-aircraftState` element. -/
def noStateResp : SoapResponse := { aircraftState := none }

/-- A response whose airspeed field is non-numeric text. -/
def badFieldResp : SoapResponse :=
  { aircraftState := some { goodState with airspeed := .text "n/a" } }

/-- A transport that answers every request with a fixed response. -/
def constTransport (resp : SoapResponse) : Transport := fun _ => .ok resp

/-- A transport whose every post raises a connection failure. -/
def downTransport : Transport := fun _ => .error .connectionRefused

/-- A field that `round` accepted was numeric. -/
theorem roundField_ok_isNum {v : PyVal} {q : ℚ} (h : roundField v = .ok q) :
    PyVal.isNum v = true := by
  cases v with
  | num r => rfl
  | text s => simp [roundField] at h

/-- Any successful `update_telemetry` returns the input state with the
decoded row installed as current telemetry and appended to the log
exactly when the channel vector is not the neutral default. -/
theorem update_telemetry_ok_shape {tNow : ℚ} {resp : SoapResponse} {c c2 : Controller}
    (h : update_telemetry tNow resp c = .ok c2) :
    ∃ row, c2 = { c with telemetry := some row,
                         log := if c.channel_values = channel_default then c.log
                                else c.log ++ [row] } := by
  unfold update_telemetry at h
  split at h
  · simp at h
  · split at h
    · exact ⟨_, by injection h with h; exact h.symm⟩
    · simp at h

/-- Failures of `update_telemetry` are `AttributeError` or `TypeError`. -/
theorem update_telemetry_err_shape {tNow : ℚ} {resp : SoapResponse} {c : Controller}
    {e : PyError} (h : update_telemetry tNow resp c = .error e) :
    e = .attributeError ∨ e = .typeError := by
  unfold update_telemetry at h
  split at h
  · exact Or.inl (by injection h with h; exact h.symm)
  · split at h
    · simp at h
    · exact Or.inr (by injection h with h; exact h.symm)

/-- An `AttributeError` arises only when the state element is absent. -/
theorem update_telemetry_attr_iff_absent {tNow : ℚ} {resp : SoapResponse} {c : Controller}
    (h : update_telemetry tNow resp c = .error .attributeError) :
    resp.aircraftState = none := by
  unfold update_telemetry at h
  split at h
  · assumption
  · split at h
    · simp at h
    · simp at h

/-- Decoding succeeds only on a present, all-numeric state element. -/
theorem update_telemetry_ok_numeric {tNow : ℚ} {resp : SoapResponse} {c c2 : Controller}
    (h : update_telemetry tNow resp c = .ok c2) :
    numericState resp = true := by
  unfold update_telemetry at h
  split at h
  · simp at h
  · next st hst =>
    split at h
    · next h1 h2 h3 h4 h5 h6 h7 =>
      simp [numericState, hst, numFields, roundField_ok_isNum h1,
            roundField_ok_isNum h2, roundField_ok_isNum h3, roundField_ok_isNum h4,
            roundField_ok_isNum h5, roundField_ok_isNum h6, roundField_ok_isNum h7]
    · simp at h

/-- A response with a present, all-numeric state element decodes. -/
theorem update_telemetry_ok_of_numeric (tNow : ℚ) (resp : SoapResponse) (c : Controller)
    (hnum : numericState resp = true) :
    ∃ row, update_telemetry tNow resp c =
      .ok { c with telemetry := some row,
                   log := if c.channel_values = channel_default then c.log
                          else c.log ++ [row] } := by
  cases hst : resp.aircraftState with
  | none => simp [numericState, hst] at hnum
  | some st =>
    simp only [numericState, hst] at hnum
    obtain ⟨f1, f2, f3, f4, f5, f6, f7, f8⟩ := st
    simp only [numFields, List.all_cons, List.all_nil, Bool.and_eq_true,
               Bool.and_true] at hnum
    obtain ⟨h1, h2, h3, h4, h5, h6, h7⟩ := hnum
    cases f1 with
    | text s => simp [PyVal.isNum] at h1
    | num q1 =>
    cases f2 with
    | text s => simp [PyVal.isNum] at h2
    | num q2 =>
    cases f3 with
    | text s => simp [PyVal.isNum] at h3
    | num q3 =>
    cases f4 with
    | text s => simp [PyVal.isNum] at h4
    | num q4 =>
    cases f5 with
    | text s => simp [PyVal.isNum] at h5
    | num q5 =>
    cases f6 with
    | text s => simp [PyVal.isNum] at h6
    | num q6 =>
    cases f7 with
    | text s => simp [PyVal.isNum] at h7
    | num q7 =>
    unfold update_telemetry
    rw [hst]
    exact ⟨_, rfl⟩

/-- Unfolding of the exchange when the transport post fails: a
`TransportError` is raised and the state is left untouched. -/
theorem update_rc_value_fail (tr : Transport) (tNow : ℚ) (c : Controller)
    (f : TransportFailure) (hlen : ¬ c.channel_values.length < 12)
    (hfail : tr (Request.exchangeData c.channel_values) = .error f) :
    update_rc_value tr tNow c =
      ⟨c, [Request.exchangeData c.channel_values],
       some (PyError.transportError f)⟩ := by
  unfold update_rc_value
  rw [if_neg hlen, hfail]

/-- Unfolding of the exchange when the transport post succeeds: the
outcome is decided by `update_telemetry` on the response. -/
theorem update_rc_value_eq_ok (tr : Transport) (tNow : ℚ) (c : Controller)
    (resp : SoapResponse) (hlen : ¬ c.channel_values.length < 12)
    (htr : tr (Request.exchangeData c.channel_values) = .ok resp) :
    update_rc_value tr tNow c =
      match update_telemetry tNow resp c with
      | .error e => ⟨c, [Request.exchangeData c.channel_values], some e⟩
      | .ok c2 => ⟨c2, [Request.exchangeData c.channel_values], none⟩ := by
  unfold update_rc_value
  rw [if_neg hlen, htr]

/-- One exchange either leaves the state untouched (on any failure) or
installs the decoded row, appending it exactly when the channel vector
is not neutral. -/
theorem update_rc_value_state_shape (tr : Transport) (tNow : ℚ) (c : Controller) :
    (update_rc_value tr tNow c).state = c ∨
    ∃ row, (update_rc_value tr tNow c).state =
      { c with telemetry := some row,
               log := if c.channel_values = channel_default then c.log
                      else c.log ++ [row] } := by
  by_cases hlen : c.channel_values.length < 12
  · unfold update_rc_value
    rw [if_pos hlen]
    exact Or.inl rfl
  · rcases htr : tr (Request.exchangeData c.channel_values) with f | resp
    · rw [update_rc_value_fail tr tNow c f hlen htr]
      exact Or.inl rfl
    · rw [update_rc_value_eq_ok tr tNow c resp hlen htr]
      rcases hut : update_telemetry tNow resp c with e | c2
      · exact Or.inl rfl
      · obtain ⟨row, hrow⟩ := update_telemetry_ok_shape hut
        exact Or.inr ⟨row, by rw [hrow]⟩

/-- An exchange never changes the stored channel vector. -/
theorem update_rc_value_channel (tr : Transport) (tNow : ℚ) (c : Controller) :
    (update_rc_value tr tNow c).state.channel_values = c.channel_values := by
  rcases update_rc_value_state_shape tr tNow c with h | ⟨row, h⟩ <;> rw [h]

/-- An exchange never changes the elapsed-time origin. -/
theorem update_rc_value_start (tr : Transport) (tNow : ℚ) (c : Controller) :
    (update_rc_value tr tNow c).state.start = c.start := by
  rcases update_rc_value_state_shape tr tNow c with h | ⟨row, h⟩ <;> rw [h]

/-- With twelve channel values stored, an exchange posts exactly one
`ExchangeData` request carrying them, whatever the transport does. -/
theorem update_rc_value_requests (tr : Transport) (tNow : ℚ) (c : Controller)
    (h12 : c.channel_values.length = 12) :
    (update_rc_value tr tNow c).requests = [Request.exchangeData c.channel_values] := by
  rcases htr : tr (Request.exchangeData c.channel_values) with f | resp
  · rw [update_rc_value_fail tr tNow c f (by omega) htr]
  · rw [update_rc_value_eq_ok tr tNow c resp (by omega) htr]
    rcases hut : update_telemetry tNow resp c with e | c2 <;> rfl

/-- An exchange can raise transport, index, attribute or type errors,
but never the spec-level typed errors. -/
theorem update_rc_value_err_shape (tr : Transport) (tNow : ℚ) (c : Controller) :
    (update_rc_value tr tNow c).err ≠ some PyError.invalidStateError ∧
    (update_rc_value tr tNow c).err ≠ some PyError.decodeError := by
  by_cases hlen : c.channel_values.length < 12
  · unfold update_rc_value
    rw [if_pos hlen]
    simp
  · rcases htr : tr (Request.exchangeData c.channel_values) with f | resp
    · rw [update_rc_value_fail tr tNow c f hlen htr]
      simp
    · rw [update_rc_value_eq_ok tr tNow c resp hlen htr]
      rcases hut : update_telemetry tNow resp c with e | c2
      · rcases update_telemetry_err_shape hut with rfl | rfl <;> simp
      · simp

/-- A successful exchange against a well-formed response: one request,
no error, row appended exactly when the vector is not neutral. -/
theorem update_rc_value_ok (tr : Transport) (tNow : ℚ) (c : Controller)
    (resp : SoapResponse) (h12 : c.channel_values.length = 12)
    (hok : tr (Request.exchangeData c.channel_values) = .ok resp)
    (hnum : numericState resp = true) :
    ∃ row, update_rc_value tr tNow c =
      ⟨{ c with telemetry := some row,
                log := if c.channel_values = channel_default then c.log
                       else c.log ++ [row] },
       [Request.exchangeData c.channel_values], none⟩ := by
  obtain ⟨row, hrow⟩ := update_telemetry_ok_of_numeric tNow resp c hnum
  refine ⟨row, ?_⟩
  rw [update_rc_value_eq_ok tr tNow c resp (by omega) hok, hrow]

/-- The conversion arithmetic always yields twelve channels. -/
theorem convert_channels_length (vx vy vz ry : ℚ) :
    (convert_channels vx vy vz ry).length = 12 := rfl

/-- The conversion arithmetic always sets flight-mode (index 7) to 1. -/
theorem convert_channels_getD7 (vx vy vz ry : ℚ) :
    (convert_channels vx vy vz ry).getD 7 0 = 1 := rfl

/-- Zero intent converts to exactly the neutral default vector. -/
theorem convert_channels_zero : convert_channels 0 0 0 0 = channel_default := by
  norm_num [convert_channels, channel_default]

/-- The reset startup vector is not the neutral default vector. -/
theorem startup_vector_ne_default : startup_vector ≠ channel_default := by
  norm_num [startup_vector, channel_default]

/-- Method `enable` posts but never touches instance state. -/
theorem enable_state (tr : Transport) (c : Controller) : (enable tr c).state = c := by
  unfold enable
  split <;> rfl

/-- Method `disable` posts but never touches instance state. -/
theorem disable_state (tr : Transport) (c : Controller) : (disable tr c).state = c := by
  unfold disable
  split <;> rfl

/-- C9: in every reachable controller state — after construction, after
every reset, and after every motion conversion or exchange — the stored
channel vector has exactly 12 elements and its index-7 (flight-mode)
element equals 1. -/
theorem C9_channel_invariant (c : Controller) (h : Reachable c) :
    c.channel_values.length = 12 ∧ c.channel_values.getD 7 0 = 1 := by
  induction h with
  | init t0 => exact ⟨rfl, rfl⟩
  | enable_step tr c hc ih => rw [enable_state]; exact ih
  | disable_step tr c hc ih => rw [disable_state]; exact ih
  | exchange_step tr tNow c hc ih => rw [update_rc_value_channel]; exact ih
  | reset_step tr tNow c hc ih =>
    unfold reset_aircraft
    split
    · exact ih
    · simp only [update_rc_value_channel]
      exact ⟨rfl, rfl⟩
  | motion_step tr tNow vx vy vz ry c hc ih =>
    unfold convert_motion_in_channel_values
    simp only [update_rc_value_channel]
    exact ⟨convert_channels_length vx vy vz ry, convert_channels_getD7 vx vy vz ry⟩

/-- Witness for C9: the invariant instantiated at the freshly
constructed controller, discharging the reachability hypothesis. -/
theorem C9_channel_invariant_witness :
    (initController 0).channel_values.length = 12 ∧
    (initController 0).channel_values.getD 7 0 = 1 :=
  C9_channel_invariant (initController 0) (Reachable.init 0)

/-- C7: `convert` applied to the all-zero motion intent returns exactly
the neutral vector `[0.5, 0.5, 0.5, 0.5, 0, 0, 0, 1, 0, 0, 0, 0]`. -/
theorem C7_zero_intent_neutral : convert_channels 0 0 0 0 = channel_default :=
  convert_channels_zero

/-- C3 counterexample: the claim fixes the trailing eight channels as
"four zeros, flight-mode = 1, three trailing zeros", which puts the 1 at
index 8; the code emits three zeros, the 1 at index 7, then four zeros,
so already the zero intent refutes the claimed layout. -/
theorem C3_counterexample :
    convert_channels 0 0 0 0 ≠ convert_channels_claim_C3 0 0 0 0 := by
  norm_num [convert_channels, convert_channels_claim_C3]

/-- C3 (amended): the roll/pitch/throttle/yaw formulas and scale factors
are as claimed, and the fixed tail is three zeros, flight-mode = 1 at
index 7, then four zeros; the forward-only scenario gives pitch
0.5 + 18/95 ≈ 0.689 with the other stick channels at 0.5. -/
theorem C3_conversion_formulas (vx vy vz ry : ℚ) :
    convert_channels vx vy vz ry =
      [0.5 - (vy * (3.6 / 9.5)) / 2,
       0.5 + (vx * (3.6 / 9.5)) / 2,
       (if 0 ≤ vz then 0.5 + (vz * (3.6 / 13.5)) / 2
        else 0.5 + (vz * (3.6 / 7)) / 2),
       0.5 + ry / 2, 0.0, 0.0, 0.0, 1, 0.0, 0.0, 0.0, 0.0] ∧
    (convert_channels 1 0 0 0).getD 1 0 = 0.5 + 18 / 95 ∧
    |(convert_channels 1 0 0 0).getD 1 0 - 0.689| < 0.001 ∧
    (convert_channels 1 0 0 0).getD 0 0 = 0.5 ∧
    (convert_channels 1 0 0 0).getD 2 0 = 0.5 ∧
    (convert_channels 1 0 0 0).getD 3 0 = 0.5 := by
  have hpitch : (convert_channels 1 0 0 0).getD 1 0 = 0.5 + (1 * 3.6 / 9.5) / 2 := rfl
  refine ⟨?_, ?_, ?_, ?_, ?_, ?_⟩
  · show [0.5 - vy * 3.6 / 9.5 / 2, 0.5 + vx * 3.6 / 9.5 / 2,
          (if vz < 0 then 0.5 + vz * 3.6 / 7 / 2 else 0.5 + vz * 3.6 / 13.5 / 2),
          0.5 + ry / 2, 0.0, 0.0, 0.0, 1, 0.0, 0.0, 0.0, 0.0] = _
    by_cases hz : vz < 0
    · rw [if_pos hz, if_neg (not_le.mpr hz)]
      simp only [List.cons.injEq]
      and_intros <;> first | rfl | ring_nf
    · rw [if_neg hz, if_pos (not_lt.mp hz)]
      simp only [List.cons.injEq]
      and_intros <;> first | rfl | ring_nf
  · rw [hpitch]; norm_num
  · rw [hpitch, abs_sub_lt_iff]
    constructor <;> norm_num
  · show (0.5 - (0 * 3.6 / 9.5) / 2 : ℚ) = 0.5
    norm_num
  · show (0.5 + (0 * 3.6 / 13.5) / 2 : ℚ) = 0.5
    norm_num
  · show (0.5 + (0 : ℚ) / 2 : ℚ) = 0.5
    norm_num

/-- C8: encoding any 12-value channel vector into an exchange-data
request body and re-parsing the body's ordered channel-value list
returns the same 12 values in the same order. -/
theorem C8_roundtrip (vs : List ℚ) (h : vs.length = 12) :
    ∃ doc, exchange_body vs = some doc ∧ parse_channel_items doc = some vs := by
  rcases vs with _ | ⟨a0, vs⟩; · simp at h
  rcases vs with _ | ⟨a1, vs⟩; · simp at h
  rcases vs with _ | ⟨a2, vs⟩; · simp at h
  rcases vs with _ | ⟨a3, vs⟩; · simp at h
  rcases vs with _ | ⟨a4, vs⟩; · simp at h
  rcases vs with _ | ⟨a5, vs⟩; · simp at h
  rcases vs with _ | ⟨a6, vs⟩; · simp at h
  rcases vs with _ | ⟨a7, vs⟩; · simp at h
  rcases vs with _ | ⟨a8, vs⟩; · simp at h
  rcases vs with _ | ⟨a9, vs⟩; · simp at h
  rcases vs with _ | ⟨a10, vs⟩; · simp at h
  rcases vs with _ | ⟨a11, vs⟩; · simp at h
  rcases vs with _ | ⟨a12, vs⟩
  · exact ⟨_, rfl, rfl⟩
  · simp at h

/-- Witness for C8 at the concrete neutral vector. -/
theorem C8_roundtrip_witness :
    ∃ doc, exchange_body channel_default = some doc ∧
      parse_channel_items doc = some channel_default :=
  C8_roundtrip channel_default rfl

/-- Unfolding of the motion method: store the converted vector, then
run one exchange on the updated state. -/
theorem convert_motion_eq (tr : Transport) (tNow vx vy vz ry : ℚ) (c : Controller) :
    convert_motion_in_channel_values tr tNow vx vy vz ry c =
      update_rc_value tr tNow
        { c with channel_values := convert_channels vx vy vz ry } := rfl

/-- Unfolding of the motion method on a literal controller state. -/
theorem convert_motion_eq_fields (tr : Transport) (tNow vx vy vz ry : ℚ)
    (a : List ℚ) (b : Option TelemetryRow) (d : List TelemetryRow) (e : ℚ) :
    convert_motion_in_channel_values tr tNow vx vy vz ry ⟨a, b, d, e⟩ =
      update_rc_value tr tNow ⟨convert_channels vx vy vz ry, b, d, e⟩ := rfl

/-- C1 counterexample: on the freshly constructed controller — the
state the spec calls Disconnected, since no takeover has happened — a
`setMotion` call raises no `InvalidStateError`, performs a network
call, and overwrites the stored channel vector. -/
theorem C1_counterexample :
    (convert_motion_in_channel_values (constTransport goodResp) 0 1 0 0 0
        (initController 0)).err ≠ some PyError.invalidStateError ∧
    (convert_motion_in_channel_values (constTransport goodResp) 0 1 0 0 0
        (initController 0)).requests ≠ [] ∧
    (convert_motion_in_channel_values (constTransport goodResp) 0 1 0 0 0
        (initController 0)).state.channel_values ≠ (initController 0).channel_values := by
  refine ⟨?_, ?_, ?_⟩
  · rw [convert_motion_eq]
    exact (update_rc_value_err_shape (constTransport goodResp) 0 _).1
  · rw [convert_motion_eq,
        update_rc_value_requests (constTransport goodResp) 0 _
          (convert_channels_length 1 0 0 0)]
    simp
  · rw [convert_motion_eq, update_rc_value_channel]
    show convert_channels 1 0 0 0 ≠ channel_default
    norm_num [convert_channels, channel_default]

/-- C1 (amended): the code has no connection-state guard at all:
called in the initial (Disconnected) state, `setMotion` stores the
converted vector and posts exactly one exchange request, whatever the
transport does, and the error it may surface is never an
`InvalidStateError`. -/
theorem C1_no_disconnected_guard (tr : Transport) (tNow t0 vx vy vz ry : ℚ) :
    (convert_motion_in_channel_values tr tNow vx vy vz ry (initController t0)).requests
        = [Request.exchangeData (convert_channels vx vy vz ry)] ∧
    (convert_motion_in_channel_values tr tNow vx vy vz ry
        (initController t0)).state.channel_values = convert_channels vx vy vz ry ∧
    (convert_motion_in_channel_values tr tNow vx vy vz ry (initController t0)).err
        ≠ some PyError.invalidStateError := by
  rw [convert_motion_eq]
  exact ⟨update_rc_value_requests tr tNow _ (convert_channels_length vx vy vz ry),
         update_rc_value_channel tr tNow _,
         (update_rc_value_err_shape tr tNow _).1⟩

/-- C2 counterexample: with the state element absent the decode raises
an `AttributeError` (None.prettify), not a typed `DecodeError`, and the
error propagates uncaught out of the exchange; a non-numeric field
raises a `TypeError`. -/
theorem C2_counterexample :
    update_telemetry 0 noStateResp (initController 0) = .error PyError.attributeError ∧
    PyError.attributeError ≠ PyError.decodeError ∧
    update_telemetry 0 badFieldResp (initController 0) = .error PyError.typeError ∧
    (update_rc_value (constTransport noStateResp) 0 (initController 0)).err
        = some PyError.attributeError :=
  ⟨rfl, by decide, rfl, rfl⟩

/-- C2 (amended): decode always fails when the state element is absent
(with `AttributeError`) or a rounded field is non-numeric (with
`TypeError`); it never produces a default-filled record in those cases
and never produces the spec-level `DecodeError`, because the failures
are unhandled exceptions rather than typed results. -/
theorem C2_decode_failure (tNow : ℚ) (c : Controller) (resp : SoapResponse) :
    (resp.aircraftState = none →
      update_telemetry tNow resp c = .error PyError.attributeError) ∧
    (∀ st, resp.aircraftState = some st →
      (∃ v ∈ numFields st, PyVal.isNum v = false) →
      update_telemetry tNow resp c = .error PyError.typeError) ∧
    (∀ e, update_telemetry tNow resp c = .error e → e ≠ PyError.decodeError) ∧
    (∀ c2, update_telemetry tNow resp c = .ok c2 → numericState resp = true) := by
  refine ⟨?_, ?_, ?_, ?_⟩
  · intro hnone
    unfold update_telemetry
    rw [hnone]
  · intro st hst hex
    obtain ⟨v, hmem, hv⟩ := hex
    cases hres : update_telemetry tNow resp c with
    | ok c2 =>
      have hnum := update_telemetry_ok_numeric hres
      simp only [numericState, hst, List.all_eq_true] at hnum
      have := hnum v hmem
      rw [hv] at this
      cases this
    | error e =>
      rcases update_telemetry_err_shape hres with rfl | rfl
      · have := update_telemetry_attr_iff_absent hres
        rw [hst] at this
        cases this
      · rfl
  · intro e he
    rcases update_telemetry_err_shape he with rfl | rfl <;> decide
  · intro c2 hc2
    exact update_telemetry_ok_numeric hc2

/-- Witness for C2 (amended) on concrete malformed and well-formed
responses. -/
theorem C2_decode_failure_witness :
    update_telemetry 0 noStateResp (initController 0) = .error PyError.attributeError ∧
    update_telemetry 0 badFieldResp (initController 0) = .error PyError.typeError ∧
    PyError.attributeError ≠ PyError.decodeError ∧
    numericState goodResp = true :=
  ⟨(C2_decode_failure 0 (initController 0) noStateResp).1 rfl,
   (C2_decode_failure 0 (initController 0) badFieldResp).2.1 _ rfl
     ⟨PyVal.text "n/a", by simp [numFields, badFieldResp, goodState], rfl⟩,
   (C2_decode_failure 0 (initController 0) noStateResp).2.2.1 PyError.attributeError
     ((C2_decode_failure 0 (initController 0) noStateResp).1 rfl),
   (C2_decode_failure 0 (initController 0) goodResp).2.2.2 _ rfl⟩

/-- C5 counterexample: when the transport post of a `setMotion` cycle
fails, the stored channel vector has already been replaced by the new
converted vector — it is not left as it was — while the telemetry is
indeed untouched. -/
theorem C5_counterexample :
    (convert_motion_in_channel_values downTransport 0 2 0 0 0 (initController 0)).err
        = some (PyError.transportError TransportFailure.connectionRefused) ∧
    (convert_motion_in_channel_values downTransport 0 2 0 0 0
        (initController 0)).state.channel_values ≠ (initController 0).channel_values ∧
    (convert_motion_in_channel_values downTransport 0 2 0 0 0
        (initController 0)).state.telemetry = (initController 0).telemetry := by
  refine ⟨rfl, ?_, rfl⟩
  rw [convert_motion_eq, update_rc_value_channel]
  show convert_channels 2 0 0 0 ≠ channel_default
  norm_num [convert_channels, channel_default]

/-- C5 (amended): a `setMotion` cycle whose transport exchange fails
surfaces the `TransportError` and leaves the current telemetry and the
log untouched, but the stored channel vector has already been
overwritten with the newly converted vector before the exchange. -/
theorem C5_failed_cycle (tr : Transport) (tNow vx vy vz ry : ℚ) (c : Controller)
    (f : TransportFailure)
    (hfail : tr (Request.exchangeData (convert_channels vx vy vz ry)) = .error f) :
    convert_motion_in_channel_values tr tNow vx vy vz ry c =
      ⟨{ c with channel_values := convert_channels vx vy vz ry },
       [Request.exchangeData (convert_channels vx vy vz ry)],
       some (PyError.transportError f)⟩ := by
  rw [convert_motion_eq]
  exact update_rc_value_fail tr tNow _ f (by simp [convert_channels_length]) hfail

/-- Witness for C5 (amended) against a refused connection. -/
theorem C5_failed_cycle_witness :
    convert_motion_in_channel_values downTransport 0 2 0 0 0 (initController 0) =
      ⟨{ initController 0 with channel_values := convert_channels 2 0 0 0 },
       [Request.exchangeData (convert_channels 2 0 0 0)],
       some (PyError.transportError TransportFailure.connectionRefused)⟩ :=
  C5_failed_cycle downTransport 0 2 0 0 0 (initController 0)
    TransportFailure.connectionRefused rfl

/-- C6 counterexample: the method that performs the motion-to-channel
conversion is not side-effect free — it posts a network request and
overwrites the current telemetry. -/
theorem C6_counterexample :
    (convert_motion_in_channel_values (constTransport goodResp) 0 0 0 1 0
        (initController 0)).requests ≠ [] ∧
    (convert_motion_in_channel_values (constTransport goodResp) 0 0 0 1 0
        (initController 0)).state.telemetry ≠ (initController 0).telemetry := by
  obtain ⟨row, hstep⟩ :=
    update_rc_value_ok (constTransport goodResp) 0
      { initController 0 with channel_values := convert_channels 0 0 1 0 }
      goodResp (convert_channels_length 0 0 1 0) rfl rfl
  rw [convert_motion_eq, hstep]
  exact ⟨by simp, by simp [initController]⟩

/-- C6 (amended): the conversion arithmetic itself is a pure function
of the intent — the stored vector it produces does not depend on the
prior controller state — but the enclosing method also posts exactly
one exchange request and may update the telemetry and append one log
row; the elapsed-time origin is never touched. -/
theorem C6_conversion_effects (tr : Transport) (tNow vx vy vz ry : ℚ) (c : Controller) :
    (convert_motion_in_channel_values tr tNow vx vy vz ry c).state.channel_values
        = convert_channels vx vy vz ry ∧
    (convert_motion_in_channel_values tr tNow vx vy vz ry c).requests
        = [Request.exchangeData (convert_channels vx vy vz ry)] ∧
    (convert_motion_in_channel_values tr tNow vx vy vz ry c).state.start = c.start ∧
    ((convert_motion_in_channel_values tr tNow vx vy vz ry c).state.log = c.log ∨
      ∃ row, (convert_motion_in_channel_values tr tNow vx vy vz ry c).state.log
          = c.log ++ [row]) := by
  rw [convert_motion_eq]
  refine ⟨update_rc_value_channel tr tNow _,
          update_rc_value_requests tr tNow _ (convert_channels_length vx vy vz ry),
          update_rc_value_start tr tNow _, ?_⟩
  rcases update_rc_value_state_shape tr tNow
      { c with channel_values := convert_channels vx vy vz ry } with h | ⟨row, h⟩
  · rw [h]
    exact Or.inl rfl
  · rw [h]
    split
    · exact Or.inl rfl
    · exact Or.inr ⟨row, rfl⟩

/-- C4: over any sequence of exchange cycles driven with prescribed
channel vectors and well-formed responses, the log grows by exactly the
number of cycles whose vector differs from the neutral default — a
decoded record is appended iff the current vector is non-neutral. -/
theorem C4_sink (tNow : ℚ) (c : Controller) (cycles : List (List ℚ × SoapResponse))
    (h : ∀ p ∈ cycles, (p.1).length = 12 ∧ numericState p.2 = true) :
    (run_cycles tNow c cycles).log.length =
      c.log.length + cycles.countP (fun p => decide ((p.1) ≠ channel_default)) := by
  induction cycles generalizing c with
  | nil => simp [run_cycles]
  | cons p rest ih =>
    obtain ⟨vec, resp⟩ := p
    obtain ⟨h12, hnum⟩ := h _ (List.mem_cons_self _ _)
    obtain ⟨row, hstep⟩ :=
      update_rc_value_ok (fun _ => Except.ok resp) tNow
        { c with channel_values := vec } resp h12 rfl hnum
    rw [run_cycles, hstep, ih _ (fun q hq => h q (List.mem_cons_of_mem _ hq))]
    by_cases hvec : vec = channel_default
    · simp [hvec, List.countP_cons]
    · simp [hvec, List.countP_cons]
      omega

/-- Witness for C4: two cycles, exactly one with a non-neutral vector. -/
theorem C4_sink_witness :
    (run_cycles 0 (initController 0)
        [(startup_vector, goodResp), (channel_default, goodResp)]).log.length =
      (initController 0).log.length +
        List.countP (fun p => decide ((p.1) ≠ channel_default))
          [(startup_vector, goodResp), (channel_default, goodResp)] :=
  C4_sink 0 (initController 0) _ (by decide)

/-- C10: after a successful reset the stored vector is the startup
vector, which differs from the neutral vector only at the throttle
index (2); consequently the exchange inside reset itself appends a
record, a following idle exchange appends another, and a subsequent
zero-motion command restores the neutral vector so its exchange appends
nothing further. -/
theorem C10_post_reset (tr : Transport) (tNow : ℚ) (c : Controller)
    (m resp resp2 : SoapResponse)
    (hreset : tr Request.resetAircraft = Except.ok m)
    (hex : tr (Request.exchangeData startup_vector) = Except.ok resp)
    (hnum : numericState resp = true)
    (hex2 : tr (Request.exchangeData channel_default) = Except.ok resp2)
    (hnum2 : numericState resp2 = true) :
    (reset_aircraft tr tNow c).state.channel_values = startup_vector ∧
    startup_vector ≠ channel_default ∧
    (∀ i, i ≠ 2 → startup_vector.getD i 0 = channel_default.getD i 0) ∧
    (reset_aircraft tr tNow c).state.log.length = c.log.length + 1 ∧
    (update_rc_value tr tNow (reset_aircraft tr tNow c).state).state.log.length
        = c.log.length + 2 ∧
    (convert_motion_in_channel_values tr tNow 0 0 0 0
        (update_rc_value tr tNow
          (reset_aircraft tr tNow c).state).state).state.log.length
        = c.log.length + 2 := by
  have hr1 : reset_aircraft tr tNow c =
      ⟨(update_rc_value tr tNow
          { c with telemetry := none, start := tNow,
                   channel_values := startup_vector }).state,
       Request.resetAircraft :: (update_rc_value tr tNow
          { c with telemetry := none, start := tNow,
                   channel_values := startup_vector }).requests,
       (update_rc_value tr tNow
          { c with telemetry := none, start := tNow,
                   channel_values := startup_vector }).err⟩ := by
    unfold reset_aircraft
    rw [hreset]
  obtain ⟨row1, hu1⟩ :=
    update_rc_value_ok tr tNow
      { c with telemetry := none, start := tNow, channel_values := startup_vector }
      resp rfl hex hnum
  have hstate1 : (reset_aircraft tr tNow c).state =
      { c with telemetry := some row1, start := tNow,
               channel_values := startup_vector, log := c.log ++ [row1] } := by
    rw [hr1]
    simp only [hu1]
    simp [startup_vector_ne_default]
  obtain ⟨row2, hu2⟩ :=
    update_rc_value_ok tr tNow
      { c with telemetry := some row1, start := tNow,
               channel_values := startup_vector, log := c.log ++ [row1] }
      resp rfl hex hnum
  have hstate2 : (update_rc_value tr tNow (reset_aircraft tr tNow c).state).state =
      { c with telemetry := some row2, start := tNow,
               channel_values := startup_vector,
               log := c.log ++ [row1] ++ [row2] } := by
    rw [hstate1, hu2]
    simp [startup_vector_ne_default]
  have hex3 : tr (Request.exchangeData (convert_channels 0 0 0 0)) = Except.ok resp2 := by
    rw [convert_channels_zero]
    exact hex2
  obtain ⟨row3, hu3⟩ :=
    update_rc_value_ok tr tNow
      { c with telemetry := some row2, start := tNow,
               channel_values := convert_channels 0 0 0 0,
               log := c.log ++ [row1] ++ [row2] }
      resp2 (convert_channels_length 0 0 0 0) hex3 hnum2
  refine ⟨?_, startup_vector_ne_default, ?_, ?_, ?_, ?_⟩
  · rw [hstate1]
  · intro i hi
    rcases i with _|_|_|_|_|_|_|_|_|_|_|_|i
    all_goals first | rfl | exact absurd rfl hi
  · rw [hstate1]
    simp
  · rw [hstate2]
    simp
  · rw [hstate2, convert_motion_eq_fields, hu3]
    simp [convert_channels_zero]

/-- Witness for C10 against a transport that always answers with a
well-formed response. -/
theorem C10_post_reset_witness :
    (reset_aircraft (constTransport goodResp) 0 (initController 0)).state.channel_values
        = startup_vector ∧
    startup_vector ≠ channel_default ∧
    (∀ i, i ≠ 2 → startup_vector.getD i 0 = channel_default.getD i 0) ∧
    (reset_aircraft (constTransport goodResp) 0 (initController 0)).state.log.length
        = (initController 0).log.length + 1 ∧
    (update_rc_value (constTransport goodResp) 0
        (reset_aircraft (constTransport goodResp) 0
          (initController 0)).state).state.log.length
        = (initController 0).log.length + 2 ∧
    (convert_motion_in_channel_values (constTransport goodResp) 0 0 0 0 0
        (update_rc_value (constTransport goodResp) 0
          (reset_aircraft (constTransport goodResp) 0
            (initController 0)).state).state).state.log.length
        = (initController 0).log.length + 2 :=
  C10_post_reset (constTransport goodResp) 0 (initController 0)
    goodResp goodResp goodResp rfl rfl rfl rfl rfl

end RealFlight
